import Mathlib

/-!
Verification of the supabase-community/storage-rs client library
(`src/client.rs`, `src/models.rs`, `src/errors.rs`).

The library is a thin HTTP client: every operation builds one request
(method, URL, headers, typed JSON payload) and turns one response
(status, body) into a typed result.  We embed exactly that pure layer:

* request construction is embedded as total functions from the client
  value and the call arguments to a `Request` value;
* the `reqwest` header machinery is embedded as an association list with
  insert-overwrite semantics (`hmInsert`); `HeaderValue::from_str` is
  embedded as the byte-validity check of the `http` crate
  (`headerValueValid`), and the fallible constructions (the Rust `?`
  operator) live in the `Except StorageError` monad;
* response handling is embedded as functions from a `Response` value to
  `Except StorageError result`; the outcome of `serde_json::from_str`
  on the body is carried explicitly in the `parsed` field of `Response`;
* `String::from_utf8_lossy` is embedded as a full UTF-8 decoder with
  U+FFFD replacement (`utf8Lossy`), following the maximal-subpart rule
  of the Rust standard library;
* `extract_token` works on Rust string slices only through `split`,
  `find`, `starts_with` and `strip_prefix` on ASCII separators, so it is
  embedded over `List Char`.

The network transport itself (reqwest's `send`) is outside the embedded
fragment: theorems speak about the request value an operation sends and
about the result an operation returns for a given received response.
-/

namespace Storage

/-- Error enumeration of `src/errors.rs`, extended with the
`UrlParseError` and `InvalidToken` variants that `src/client.rs`
constructs (`build_url_with_options`, `extract_token`). -/
inductive StorageError where
  | storageError (status : Nat) (message : String)
  | invalidEnvironmentVariable
  | serdeError
  | invalidHeaderValue
  | requestError
  | urlParseError (message : String)
  | invalidToken (message : String)
  deriving DecidableEq, Repr

/-- Constant `HEADER_API_KEY` of `src/models.rs`. -/
def HEADER_API_KEY : String := "apikey"

/-- Constant `STORAGE_V1` of `src/models.rs`. -/
def STORAGE_V1 : String := "/storage/v1"

/-- Normalized name of the `reqwest` constant `AUTHORIZATION`. -/
def AUTHORIZATION : String := "authorization"

/-- Normalized name of the `reqwest` constant `CONTENT_TYPE`. -/
def CONTENT_TYPE : String := "content-type"

/-- Normalized name of the `reqwest` constant `CACHE_CONTROL`. -/
def CACHE_CONTROL : String := "cache-control"

/-- A reqwest `HeaderMap`, embedded as an association list from header
names to values.  Header names that occur in this development are fixed
lowercase literals, so the case normalization done by `HeaderName` is a
no-op. -/
abbrev HeaderMap := List (String × String)

/-- Embeds `HeaderMap::insert`: the new value replaces any existing
entry for the same name.  Entry order is not observed by any claim, so
the replaced entry is re-inserted at the front. -/
def hmInsert (m : HeaderMap) (k v : String) : HeaderMap :=
  (k, v) :: m.filter (fun p => p.1 != k)

/-- Embeds `HeaderMap::contains_key`. -/
def hmContains (m : HeaderMap) (k : String) : Bool :=
  m.any (fun p => p.1 == k)

/-- Embeds `HeaderMap::get` (the value carried for a name, if any). -/
def hmGet? (m : HeaderMap) (k : String) : Option String :=
  (m.find? (fun p => p.1 == k)).map (fun p => p.2)

/-- Validity of one byte of a header value, from the `http` crate
(`HeaderValue::is_valid`): visible ASCII or opaque high bytes or tab. -/
def headerByteValid (b : Nat) : Bool :=
  (32 ≤ b && b != 127) || b == 9

/-- Validity of a header value string (`HeaderValue::from_str` succeeds
iff every byte is valid).  Bytes ≥ 0x80 produced by non-ASCII characters
are always valid, so validity is char-wise. -/
def headerValueValid (s : String) : Bool :=
  s.data.all (fun c => headerByteValid (min c.toNat 128))

/-- Embeds `HeaderValue::from_str(v)?`: the value itself on success, the
`InvalidHeaderValue` error otherwise. -/
def headerValueFromStr (v : String) : Except StorageError String :=
  if headerValueValid v then .ok v else .error .invalidHeaderValue

/-- Outcome of a Rust expression that can panic: used to embed
`insert_header`, whose failure mode is `.expect(...)`. -/
inductive PanicOr (α : Type) where
  | panicked (msg : String)
  | ok (a : α)
  deriving Repr

instance {α : Type} [DecidableEq α] : DecidableEq (PanicOr α) := fun a b =>
  match a, b with
  | .panicked m, .panicked n =>
    if h : m = n then .isTrue (by rw [h]) else .isFalse (fun hc => h (by cases hc; rfl))
  | .ok x, .ok y =>
    if h : x = y then .isTrue (by rw [h]) else .isFalse (fun hc => h (by cases hc; rfl))
  | .panicked _, .ok _ => .isFalse (fun hc => PanicOr.noConfusion hc)
  | .ok _, .panicked _ => .isFalse (fun hc => PanicOr.noConfusion hc)

instance {ε α : Type} [DecidableEq ε] [DecidableEq α] : DecidableEq (Except ε α) := fun a b =>
  match a, b with
  | .error m, .error n =>
    if h : m = n then .isTrue (by rw [h]) else .isFalse (fun hc => h (by cases hc; rfl))
  | .ok x, .ok y =>
    if h : x = y then .isTrue (by rw [h]) else .isFalse (fun hc => h (by cases hc; rfl))
  | .error _, .ok _ => .isFalse (fun hc => Except.noConfusion hc)
  | .ok _, .error _ => .isFalse (fun hc => Except.noConfusion hc)

/-- The `StorageClient` of `src/models.rs` / `src/client.rs`: project
URL, API key credential and default header map (the reqwest transport
handle carries no observable state and is omitted). -/
structure StorageClient where
  project_url : String
  api_key : String
  headers : HeaderMap
  deriving DecidableEq, Repr

/-- Embeds `StorageClient::insert_header` (`src/client.rs:54`): inserts
the header if the value is legal, and otherwise panics with the message
of the `.expect` call — it does not return an error. -/
def insert_header (c : StorageClient) (name value : String) :
    PanicOr StorageClient :=
  if headerValueValid value then
    .ok { c with headers := hmInsert c.headers name value }
  else
    .panicked "Invalid header value."

/-- HTTP methods used by the client. -/
inductive Method where
  | GET | POST | PUT | DELETE
  deriving DecidableEq, Repr

/-- An HTTP request as the client assembles it: method, URL, headers and
a typed body (serde serialization of the typed payload is outside the
embedded fragment, so the body stays typed). -/
structure Request (β : Type) where
  method : Method
  url : String
  headers : HeaderMap
  body : β
  deriving DecidableEq, Repr

/-- A received HTTP response for an operation whose body is read as text
and fed to `serde_json::from_str::<α>`: `parsed` carries the outcome of
that deserialization of `body`. -/
structure Response (α : Type) where
  status : Nat
  body : String
  parsed : Option α
  deriving Repr

/-- A received HTTP response whose body is read as raw bytes
(`download_file`). -/
structure BytesResponse where
  status : Nat
  body : List Nat
  deriving DecidableEq, Repr

/-- Embeds `StatusCode::is_success`: 2xx. -/
def is_success (status : Nat) : Bool :=
  200 ≤ status && status ≤ 299

/-! ### UTF-8 lossy decoding (`String::from_utf8_lossy`) -/

/-- The replacement character U+FFFD. -/
def repChar : Char := Char.ofNat 0xFFFD

/-- A UTF-8 continuation byte. -/
def isCont (b : Nat) : Bool := 0x80 ≤ b && b ≤ 0xBF

/-- Allowed first continuation byte after a three-byte leader, as in the
Rust standard library validator (excludes overlong forms and
surrogates). -/
def cont1ok3 (b0 b1 : Nat) : Bool :=
  if b0 = 0xE0 then 0xA0 ≤ b1 && b1 ≤ 0xBF
  else if b0 = 0xED then 0x80 ≤ b1 && b1 ≤ 0x9F
  else isCont b1

/-- Allowed first continuation byte after a four-byte leader, as in the
Rust standard library validator (excludes overlong forms and values
above U+10FFFF). -/
def cont1ok4 (b0 b1 : Nat) : Bool :=
  if b0 = 0xF0 then 0x90 ≤ b1 && b1 ≤ 0xBF
  else if b0 = 0xF4 then 0x80 ≤ b1 && b1 ≤ 0x8F
  else isCont b1

/-- Character stream of `String::from_utf8_lossy`: valid sequences are
decoded, every maximal invalid subpart becomes one U+FFFD.  The `fuel`
argument only forces structural termination: every step consumes at
least one input byte, so calling with `fuel = input length` (as
`utf8Lossy` does) decodes the whole input. -/
def utf8LossyGo : Nat → List Nat → List Char
  | 0, _ => []
  | _, [] => []
  | fuel + 1, b0 :: rest =>
    if b0 < 0x80 then
      Char.ofNat b0 :: utf8LossyGo fuel rest
    else if 0xC2 ≤ b0 && b0 ≤ 0xDF then
      match rest with
      | b1 :: rest2 =>
        if isCont b1 then
          Char.ofNat ((b0 - 0xC0) * 64 + (b1 - 0x80)) :: utf8LossyGo fuel rest2
        else repChar :: utf8LossyGo fuel rest
      | [] => [repChar]
    else if 0xE0 ≤ b0 && b0 ≤ 0xEF then
      match rest with
      | b1 :: rest2 =>
        if cont1ok3 b0 b1 then
          match rest2 with
          | b2 :: rest3 =>
            if isCont b2 then
              Char.ofNat ((b0 - 0xE0) * 4096 + (b1 - 0x80) * 64 + (b2 - 0x80))
                :: utf8LossyGo fuel rest3
            else repChar :: utf8LossyGo fuel rest2
          | [] => [repChar]
        else repChar :: utf8LossyGo fuel rest
      | [] => [repChar]
    else if 0xF0 ≤ b0 && b0 ≤ 0xF4 then
      match rest with
      | b1 :: rest2 =>
        if cont1ok4 b0 b1 then
          match rest2 with
          | b2 :: rest3 =>
            if isCont b2 then
              match rest3 with
              | b3 :: rest4 =>
                if isCont b3 then
                  Char.ofNat ((b0 - 0xF0) * 262144 + (b1 - 0x80) * 4096 +
                      (b2 - 0x80) * 64 + (b3 - 0x80)) :: utf8LossyGo fuel rest4
                else repChar :: utf8LossyGo fuel rest3
              | [] => [repChar]
            else repChar :: utf8LossyGo fuel rest2
          | [] => [repChar]
        else repChar :: utf8LossyGo fuel rest
      | [] => [repChar]
    else repChar :: utf8LossyGo fuel rest

/-- Embeds `String::from_utf8_lossy(..).to_string()`. -/
def utf8Lossy (bytes : List Nat) : String :=
  String.mk (utf8LossyGo bytes.length bytes)

/-- Embeds `str::split(sep)` as a list of the separated segments (the
Rust iterator yields exactly these segments in order). -/
def splitOnChar (sep : Char) : List Char → List (List Char)
  | [] => [[]]
  | c :: rest =>
    match splitOnChar sep rest with
    | [] => [[]]
    | h :: t => if c = sep then [] :: h :: t else (c :: h) :: t

/-! ### MIME types (`src/models.rs`) -/

/-- The `MimeType` enumeration of `src/models.rs`: well-known MIME types
plus the open `Custom` variant. -/
inductive MimeType where
  | Custom (mime : String)
  | AAC | AbiWord | APNG | Archive | AVIF | AVI | AmazonKindle
  | BinaryData | BMP | BZip | BZip2 | CDAudio | CShellScript | CSS | CSV
  | DOC | DOCX | EOT | EPUB | GZip | GIF | HTML | Icon | ICalendar
  | JAR | JPEG | JavaScript | JSON | JSONLD | MIDI | JavaScriptModule
  | MP3 | MP4 | MPEG | AppleInstaller | ODP | ODS | ODT
  | OggAudio | OggVideo | Ogg | OpusAudio | OTF | PNG | PDF | PHP
  | PPT | PPTX | RAR | RTF | ShellScript | SVG | TAR | TIFF
  | MPEGTransportStream | TTF | PlainText | Visio | WAV
  | WEBMAudio | WEBMVideo | WEBP | WOFF | WOFF2 | XHTML
  | XLS | XLSX | XML | XUL | ZIP | ThreeGPP | ThreeGPP2 | SevenZip

/-- Embeds `MimeType::as_str` (and the `Display` impl, which prints
exactly `as_str`). -/
def MimeType.as_str : MimeType → String
  | .AAC => "audio/aac"
  | .AbiWord => "application/x-abiword"
  | .APNG => "image/apng"
  | .Archive => "application/x-freearc"
  | .AVIF => "image/avif"
  | .AVI => "video/x-msvideo"
  | .AmazonKindle => "application/vnd.amazon.ebook"
  | .BinaryData => "application/octet-stream"
  | .BMP => "image/bmp"
  | .BZip => "application/x-bzip"
  | .BZip2 => "application/x-bzip2"
  | .CDAudio => "application/x-cdf"
  | .CShellScript => "application/x-csh"
  | .CSS => "text/css"
  | .CSV => "text/csv"
  | .DOC => "application/msword"
  | .DOCX => "application/vnd.openxmlformats-officedocument.wordprocessingml.document"
  | .EOT => "application/vnd.ms-fontobject"
  | .EPUB => "application/epub+zip"
  | .GZip => "application/gzip"
  | .GIF => "image/gif"
  | .HTML => "text/html"
  | .Icon => "image/vnd.microsoft.icon"
  | .ICalendar => "text/calendar"
  | .JAR => "application/java-archive"
  | .JPEG => "image/jpeg"
  | .JavaScript => "text/javascript"
  | .JSON => "application/json"
  | .JSONLD => "application/ld+json"
  | .MIDI => "audio/midi"
  | .JavaScriptModule => "text/javascript"
  | .MP3 => "audio/mpeg"
  | .MP4 => "video/mp4"
  | .MPEG => "video/mpeg"
  | .AppleInstaller => "application/vnd.apple.installer+xml"
  | .ODP => "application/vnd.oasis.opendocument.presentation"
  | .ODS => "application/vnd.oasis.opendocument.spreadsheet"
  | .ODT => "application/vnd.oasis.opendocument.text"
  | .OggAudio => "audio/ogg"
  | .OggVideo => "video/ogg"
  | .Ogg => "application/ogg"
  | .OpusAudio => "audio/ogg"
  | .OTF => "font/otf"
  | .PNG => "image/png"
  | .PDF => "application/pdf"
  | .PHP => "application/x-httpd-php"
  | .PPT => "application/vnd.ms-powerpoint"
  | .PPTX => "application/vnd.openxmlformats-officedocument.presentationml.presentation"
  | .RAR => "application/vnd.rar"
  | .RTF => "application/rtf"
  | .ShellScript => "application/x-sh"
  | .SVG => "image/svg+xml"
  | .TAR => "application/x-tar"
  | .TIFF => "image/tiff"
  | .MPEGTransportStream => "video/mp2t"
  | .TTF => "font/ttf"
  | .PlainText => "text/plain"
  | .Visio => "application/vnd.visio"
  | .WAV => "audio/wav"
  | .WEBMAudio => "audio/webm"
  | .WEBMVideo => "video/webm"
  | .WEBP => "image/webp"
  | .WOFF => "font/woff"
  | .WOFF2 => "font/woff2"
  | .XHTML => "application/xhtml+xml"
  | .XLS => "application/vnd.ms-excel"
  | .XLSX => "application/vnd.openxmlformats-officedocument.spreadsheetml.sheet"
  | .XML => "application/xml"
  | .XUL => "application/vnd.mozilla.xul+xml"
  | .ZIP => "application/zip"
  | .ThreeGPP => "video/3gpp"
  | .ThreeGPP2 => "video/3gpp2"
  | .SevenZip => "application/x-7z-compressed"
  | .Custom mime => mime

/-- A non-empty, well-formed `type/subtype` MIME string: splitting on
the slash yields exactly a non-empty type and a non-empty subtype. -/
def wellFormedMime (s : String) : Bool :=
  match splitOnChar '/' s.data with
  | [t, sub] => t != [] && sub != []
  | _ => false

/-! ### Typed payloads and responses (`src/models.rs`) -/

/-- The `CreateBucket` payload of `src/models.rs`; the MIME list is
already converted to its string form, as `create_bucket` does. -/
structure CreateBucket where
  id : Option String
  name : String
  public : Bool
  allowed_mime_types : Option (List String)
  file_size_limit : Option Nat
  deriving DecidableEq, Repr

/-- The `UpdateBucket` payload of `src/models.rs`. -/
structure UpdateBucket where
  id : String
  public : Bool
  allowed_mime_types : Option (List String)
  file_size_limit : Option Nat
  deriving DecidableEq, Repr

/-- The `CreateBucketResponse` of `src/models.rs`. -/
structure CreateBucketResponse where
  name : String
  deriving DecidableEq, Repr

/-- The `BucketResponse` of `src/models.rs`. -/
structure BucketResponse where
  message : String
  deriving DecidableEq, Repr

/-- The `ObjectResponse` of `src/models.rs`. -/
structure ObjectResponse where
  id : String
  key : String
  deriving DecidableEq, Repr

/-- The `SignedUploadUrlResponse` of `src/models.rs`: it carries only
the `url` field. -/
structure SignedUploadUrlResponse where
  url : String
  deriving DecidableEq, Repr

/-- The `CopyFilePayload` of `src/models.rs`. -/
structure CopyFilePayload where
  bucket_id : String
  source_key : String
  destination_bucket : String
  destination_key : String
  copy_metadata : Bool
  deriving DecidableEq, Repr

/-- The `MoveFilePayload` of `src/models.rs`. -/
structure MoveFilePayload where
  bucket_id : String
  source_key : String
  destination_bucket : String
  destination_key : String
  deriving DecidableEq, Repr

/-- The `FileOptions` of `src/models.rs` (`cache_control` already in
whole seconds, as `Duration::as_secs` yields it). -/
structure FileOptions where
  cache_control : Option Nat
  content_type : Option String
  duplex : Option String
  upsert : Bool
  deriving DecidableEq, Repr

/-- The `TransformOptions` of `src/models.rs`. -/
structure TransformOptions where
  width : Option Nat
  height : Option Nat
  resize : Option String
  format : Option String
  quality : Option Nat
  deriving DecidableEq, Repr

/-- The `DownloadOptions` of `src/models.rs`. -/
structure DownloadOptions where
  transform : Option TransformOptions
  download : Option Bool
  deriving DecidableEq, Repr

/-! ### Header construction per operation (`src/client.rs`)

Each function mirrors the header block at the top of the corresponding
method body; the Rust `?` on `HeaderValue::from_str` becomes a bind in
`Except StorageError`. -/

/-- Header block of `create_bucket` (`src/client.rs:89`): apikey, then
bearer authorization unless already present, then JSON content type. -/
def create_bucket_headers (c : StorageClient) : Except StorageError HeaderMap := do
  let headers := c.headers
  let apiv ← headerValueFromStr c.api_key
  let headers := hmInsert headers HEADER_API_KEY apiv
  let headers ←
    if hmContains headers AUTHORIZATION then pure headers else do
      let bearer ← headerValueFromStr ("Bearer " ++ c.api_key)
      pure (hmInsert headers AUTHORIZATION bearer)
  let ctv ← headerValueFromStr "application/json"
  pure (hmInsert headers CONTENT_TYPE ctv)

/-- Header block of `update_bucket` (`src/client.rs:256`): identical to
the `create_bucket` block. -/
def update_bucket_headers (c : StorageClient) : Except StorageError HeaderMap :=
  create_bucket_headers c

/-- Header block of `delete_bucket` (`src/client.rs:140`): only the
bearer authorization header, and only when not already present — no
apikey header is inserted. -/
def delete_bucket_headers (c : StorageClient) : Except StorageError HeaderMap := do
  let headers := c.headers
  if hmContains headers AUTHORIZATION then pure headers else do
    let bearer ← headerValueFromStr ("Bearer " ++ c.api_key)
    pure (hmInsert headers AUTHORIZATION bearer)

/-- Header block of `empty_bucket` (`src/client.rs:305`): apikey and
conditional bearer authorization, without a content type. -/
def empty_bucket_headers (c : StorageClient) : Except StorageError HeaderMap := do
  let headers := c.headers
  let apiv ← headerValueFromStr c.api_key
  let headers := hmInsert headers HEADER_API_KEY apiv
  if hmContains headers AUTHORIZATION then pure headers else do
    let bearer ← headerValueFromStr ("Bearer " ++ c.api_key)
    pure (hmInsert headers AUTHORIZATION bearer)

/-- Header block of `upload_or_update_file` (`src/client.rs:344`):
conditional bearer authorization, then the optional cache-control,
content-type and x-upsert headers taken from `FileOptions` (the upsert
header only when the flag is true; `format!` renders `true`). -/
def upload_headers (c : StorageClient) (options : Option FileOptions) :
    Except StorageError HeaderMap := do
  let headers := c.headers
  let headers ←
    if hmContains headers AUTHORIZATION then pure headers else do
      let bearer ← headerValueFromStr ("Bearer " ++ c.api_key)
      pure (hmInsert headers AUTHORIZATION bearer)
  match options with
  | none => pure headers
  | some opts => do
    let headers ←
      match opts.cache_control with
      | some cc => do
        let v ← headerValueFromStr (toString cc)
        pure (hmInsert headers CACHE_CONTROL v)
      | none => pure headers
    let headers ←
      match opts.content_type with
      | some ct => do
        let v ← headerValueFromStr ct
        pure (hmInsert headers CONTENT_TYPE v)
      | none => pure headers
    if opts.upsert then do
      let v ← headerValueFromStr (toString true)
      pure (hmInsert headers "x-upsert" v)
    else pure headers

/-! ### Request construction per operation (`src/client.rs`) -/

/-- Payload assembly of `create_bucket` (`src/client.rs:100`): the MIME
list is converted to strings, and the id defaults to the name when
omitted. -/
def create_bucket_payload (name : String) (id : Option String) (public : Bool)
    (allowed_mime_types : Option (List MimeType)) (file_size_limit : Option Nat) :
    CreateBucket :=
  { id := some (id.getD name)
    name := name
    public := public
    allowed_mime_types := allowed_mime_types.map (fun types => types.map MimeType.as_str)
    file_size_limit := file_size_limit }

/-- Request assembled by `create_bucket` (`src/client.rs:81`): POST to
`/bucket` with the creation payload. -/
def create_bucket_request (c : StorageClient) (name : String) (id : Option String)
    (public : Bool) (allowed_mime_types : Option (List MimeType))
    (file_size_limit : Option Nat) : Except StorageError (Request CreateBucket) := do
  let headers ← create_bucket_headers c
  pure { method := .POST
         url := c.project_url ++ STORAGE_V1 ++ "/bucket"
         headers := headers
         body := create_bucket_payload name id public allowed_mime_types file_size_limit }

/-- Request assembled by `update_bucket` (`src/client.rs:249`): PUT to
`/bucket/{id}` with the update payload. -/
def update_bucket_request (c : StorageClient) (id : String) (public : Bool)
    (allowed_mime_types : Option (List MimeType)) (file_size_limit : Option Nat) :
    Except StorageError (Request UpdateBucket) := do
  let headers ← update_bucket_headers c
  pure { method := .PUT
         url := c.project_url ++ STORAGE_V1 ++ "/bucket/" ++ id
         headers := headers
         body := { id := id
                   public := public
                   allowed_mime_types :=
                     allowed_mime_types.map (fun types => types.map MimeType.as_str)
                   file_size_limit := file_size_limit } }

/-- Request assembled by `delete_bucket` (`src/client.rs:139`): DELETE
of `/bucket/{id}` with no body. -/
def delete_bucket_request (c : StorageClient) (id : String) :
    Except StorageError (Request Unit) := do
  let headers ← delete_bucket_headers c
  pure { method := .DELETE
         url := c.project_url ++ STORAGE_V1 ++ "/bucket/" ++ id
         headers := headers
         body := () }

/-- Request assembled by `empty_bucket` (`src/client.rs:304`): POST to
`/bucket/{id}/empty` with no body. -/
def empty_bucket_request (c : StorageClient) (id : String) :
    Except StorageError (Request Unit) := do
  let headers ← empty_bucket_headers c
  pure { method := .POST
         url := c.project_url ++ STORAGE_V1 ++ "/bucket/" ++ id ++ "/empty"
         headers := headers
         body := () }

/-- Request assembled by `upload_or_update_file` (`src/client.rs:336`):
PUT when `update` is true and POST otherwise, to
`/object/{bucket_id}/{path}`, carrying the raw bytes. -/
def upload_or_update_file_request (c : StorageClient) (bucket_id : String)
    (data : List Nat) (path : String) (update : Bool) (options : Option FileOptions) :
    Except StorageError (Request (List Nat)) :=
  match upload_headers c options with
  | .error e => .error e
  | .ok headers =>
    let url := c.project_url ++ STORAGE_V1 ++ "/object/" ++ bucket_id ++ "/" ++ path
    .ok (match update with
      | true => { method := .PUT, url := url, headers := headers, body := data }
      | false => { method := .POST, url := url, headers := headers, body := data })

/-- Embeds `replace_file` (`src/client.rs:419`): delegates to the
upload-or-update primitive with `update = true`. -/
def replace_file_request (c : StorageClient) (bucket_id : String) (data : List Nat)
    (path : String) (options : Option FileOptions) :
    Except StorageError (Request (List Nat)) :=
  upload_or_update_file_request c bucket_id data path true options

/-- Embeds `update_file` (`src/client.rs:438`): delegates to the
upload-or-update primitive with `update = true`. -/
def update_file_request (c : StorageClient) (bucket_id : String) (data : List Nat)
    (path : String) (options : Option FileOptions) :
    Except StorageError (Request (List Nat)) :=
  upload_or_update_file_request c bucket_id data path true options

/-- Embeds `upload_file` (`src/client.rs:455`): delegates to the
upload-or-update primitive with `update = false`. -/
def upload_file_request (c : StorageClient) (bucket_id : String) (data : List Nat)
    (path : String) (options : Option FileOptions) :
    Except StorageError (Request (List Nat)) :=
  upload_or_update_file_request c bucket_id data path false options

/-- Payload assembly of `copy_file` (`src/client.rs:660`): the
destination bucket defaults to the source bucket and the destination
key defaults to the source key. -/
def copy_file_payload (from_bucket : String) (to_bucket : Option String)
    (from_path : String) (to_path : Option String) (copy_metadata : Bool) :
    CopyFilePayload :=
  { bucket_id := from_bucket
    source_key := from_path
    destination_bucket := to_bucket.getD from_bucket
    destination_key := to_path.getD from_path
    copy_metadata := copy_metadata }

/-- Payload assembly of `move_file` (`src/client.rs:1003`): the
destination bucket defaults to the source bucket; the destination key
is a required argument with no default. -/
def move_file_payload (from_bucket : String) (to_bucket : Option String)
    (from_path : String) (to_path : String) : MoveFilePayload :=
  { bucket_id := from_bucket
    source_key := from_path
    destination_bucket := to_bucket.getD from_bucket
    destination_key := to_path }

/-! ### Response handling per operation (`src/client.rs`) -/

/-- Response handling of `create_bucket` (`src/client.rs:121`): the
body is parsed as `CreateBucketResponse`; only a parse failure is
turned into a `StorageError` carrying the status and raw body; a
successful parse returns the bucket name regardless of the status. -/
def create_bucket_handle (res : Response CreateBucketResponse) :
    Except StorageError String :=
  match res.parsed with
  | some bucket => .ok bucket.name
  | none => .error (.storageError res.status res.body)

/-- Response handling of `delete_bucket` (`src/client.rs:155`): unit on
2xx, otherwise a `StorageError` with the status and raw body. -/
def delete_bucket_handle (res : Response Unit) : Except StorageError Unit :=
  if is_success res.status then .ok () else .error (.storageError res.status res.body)

/-- Response handling of `download_file` (`src/client.rs:503`): the raw
bytes on 2xx, otherwise a `StorageError` whose message is the body
decoded as lossy UTF-8. -/
def download_file_handle (res : BytesResponse) : Except StorageError (List Nat) :=
  if is_success res.status then .ok res.body
  else .error (.storageError res.status (utf8Lossy res.body))

/-- Response handling of `create_signed_upload_url`
(`src/client.rs:837`): the body is parsed as `SignedUploadUrlResponse`
and returned as-is; a parse failure becomes a `StorageError`. -/
def create_signed_upload_url_handle (res : Response SignedUploadUrlResponse) :
    Except StorageError SignedUploadUrlResponse :=
  match res.parsed with
  | some response => .ok response
  | none => .error (.storageError res.status res.body)

/-! ### Public URL construction (`src/client.rs:949` and `:1033`) -/

/-- A URL together with its appended query pairs.  The `url` crate's
parse/serialize round trip inside `build_url_with_options` is embedded
structurally: the base string is kept as-is and `append_pair` becomes a
list append, which is what every claim about the produced URL
observes.  The parse-failure branch (`UrlParseError`) only triggers on
a malformed project URL and is not reachable from any claim. -/
structure UrlWithQuery where
  base : String
  query : List (String × String)
  deriving DecidableEq, Repr

/-- Embeds `build_url_with_options` (`src/client.rs:1033`): appends, in
order, height, width, format and quality from the transform options,
the resize value only when it is one of the three allow-listed
literals, and `download=true` when the download flag is set. -/
def build_url_with_options (url_str : String) (options : DownloadOptions) :
    UrlWithQuery :=
  let pairs : List (String × String) := []
  let pairs :=
    match options.transform with
    | some transform =>
      let pairs :=
        match transform.height with
        | some height => pairs ++ [("height", toString height)]
        | none => pairs
      let pairs :=
        match transform.width with
        | some width => pairs ++ [("width", toString width)]
        | none => pairs
      let pairs :=
        match transform.format with
        | some format => pairs ++ [("format", format)]
        | none => pairs
      let pairs :=
        match transform.quality with
        | some quality => pairs ++ [("quality", toString quality)]
        | none => pairs
      match transform.resize with
      | some resize =>
        if resize = "conver" ∨ resize = "contain" ∨ resize = "fill" then
          pairs ++ [("resize", resize)]
        else pairs
      | none => pairs
    | none => pairs
  let pairs :=
    if options.download.getD false then pairs ++ [("download", "true")] else pairs
  { base := url_str, query := pairs }

/-- Embeds `get_public_url` (`src/client.rs:949`): pure, local URL
construction — it builds no `Request` and performs no network call.
The path segment is `render/image` exactly when transform options are
present, and the query pairs come from `build_url_with_options`. -/
def get_public_url (c : StorageClient) (bucket_id path : String)
    (options : Option DownloadOptions) : UrlWithQuery :=
  let renderpath :=
    match options with
    | some opts => if opts.transform.isSome then "render/image" else "object"
    | none => "object"
  let url_str := c.project_url ++ STORAGE_V1 ++ "/" ++ renderpath ++ "/public/" ++
    bucket_id ++ "/" ++ path
  match options with
  | some opts => build_url_with_options url_str opts
  | none => { base := url_str, query := [] }

/-! ### Token extraction (`src/client.rs:1078`)

`extract_token` manipulates the string only through `split` on ASCII
separators, `find`, `starts_with` and `strip_prefix`, so it is embedded
over the character list of the string. -/

/-- The characters of the literal `"token="`. -/
def tokenKey : List Char := ['t', 'o', 'k', 'e', 'n', '=']

/-- Embeds `extract_token` (`src/client.rs:1078`): the second
`'?'`-separated segment is split on `'&'`; the first parameter starting
with `token=` is returned without that six-character program text, and
every other input yields the `InvalidToken` error. -/
def extract_token (url : List Char) : Except StorageError (List Char) :=
  let found :=
    ((splitOnChar '?' url).get? 1).bind
      (fun query => (splitOnChar '&' query).find? (fun p => tokenKey.isPrefixOf p))
  let stripped := found.bind
    (fun p => if tokenKey.isPrefixOf p then some (p.drop 6) else none)
  match stripped with
  | some token => .ok token
  | none => .error (.invalidToken "No token found in URL")

/-- Specification-side notion for the token-extraction claim, built
from independent primitives: the query section of a URL is the text
strictly between the first `'?'` and the following `'?'` (or the end),
and is absent when the URL has no `'?'` at all. -/
def querySection (url : List Char) : Option (List Char) :=
  if ('?' ∈ url) then
    some (((url.dropWhile (fun c => c != '?')).drop 1).takeWhile (fun c => c != '?'))
  else none

/-! ## Helper lemmas -/

theorem except_bind_ok {ε α β : Type} (a : α) (f : α → Except ε β) :
    (do let x ← (Except.ok a : Except ε α); f x) = f a := rfl

theorem headerValueFromStr_ok {v : String} (h : headerValueValid v = true) :
    headerValueFromStr v = .ok v := by
  simp [headerValueFromStr, h]

theorem headerValueValid_bearer {k : String} (h : headerValueValid k = true) :
    headerValueValid ("Bearer " ++ k) = true := by
  have hdata : ("Bearer " ++ k).data = "Bearer ".data ++ k.data := rfl
  unfold headerValueValid at h ⊢
  rw [hdata, List.all_append, h]
  decide

theorem find?_filter_ne (m : HeaderMap) (k q : String) (h : q ≠ k) :
    (m.filter (fun p => p.1 != k)).find? (fun p => p.1 == q) =
      m.find? (fun p => p.1 == q) := by
  have hkq : (k == q) = false := beq_eq_false_iff_ne.mpr (fun hh => h hh.symm)
  induction m with
  | nil => rfl
  | cons a t ih =>
    by_cases hak : a.1 = k
    · have haq : (a.1 == q) = false := by rw [hak]; exact hkq
      simp [List.filter_cons, hak, List.find?_cons, haq, hkq, ih]
    · have hne : (a.1 != k) = true := by simp [hak]
      cases haq : (a.1 == q) <;>
        simp [List.filter_cons, hne, List.find?_cons, haq, ih]

theorem any_filter_ne (m : HeaderMap) (k q : String) (h : q ≠ k) :
    (m.filter (fun p => p.1 != k)).any (fun p => p.1 == q) =
      m.any (fun p => p.1 == q) := by
  have hkq : ¬k = q := fun hh => h hh.symm
  induction m with
  | nil => rfl
  | cons a t ih =>
    by_cases hak : a.1 = k
    · have haq : (a.1 == q) = false := by
        rw [hak]; exact beq_eq_false_iff_ne.mpr hkq
      simp [List.filter_cons, hak, List.any_cons, haq, hkq, ih]
    · have hne : (a.1 != k) = true := by simp [hak]
      simp [List.filter_cons, hne, List.any_cons, ih]

theorem hmGet?_insert_self (m : HeaderMap) (k v : String) :
    hmGet? (hmInsert m k v) k = some v := by
  simp [hmGet?, hmInsert, List.find?_cons]

theorem hmGet?_insert_ne (m : HeaderMap) (k v q : String) (h : q ≠ k) :
    hmGet? (hmInsert m k v) q = hmGet? m q := by
  have hkq : (k == q) = false := beq_eq_false_iff_ne.mpr (fun hh => h hh.symm)
  simp [hmGet?, hmInsert, List.find?_cons, hkq, find?_filter_ne m k q h]

theorem hmContains_insert_ne (m : HeaderMap) (k v q : String) (h : q ≠ k) :
    hmContains (hmInsert m k v) q = hmContains m q := by
  have hkq : (k == q) = false := beq_eq_false_iff_ne.mpr (fun hh => h hh.symm)
  simp [hmContains, hmInsert, List.any_cons, hkq, any_filter_ne m k q h]

theorem create_bucket_headers_eq (c : StorageClient)
    (hv : headerValueValid c.api_key = true)
    (hna : hmContains c.headers AUTHORIZATION = false) :
    create_bucket_headers c = .ok (hmInsert (hmInsert (hmInsert c.headers
      HEADER_API_KEY c.api_key) AUTHORIZATION ("Bearer " ++ c.api_key))
      CONTENT_TYPE "application/json") := by
  have h1 := headerValueFromStr_ok hv
  have h2 := headerValueFromStr_ok (headerValueValid_bearer hv)
  have h3 : headerValueFromStr "application/json" = .ok "application/json" :=
    headerValueFromStr_ok (by decide)
  have hc : hmContains (hmInsert c.headers HEADER_API_KEY c.api_key) AUTHORIZATION
      = false := by
    rw [hmContains_insert_ne _ _ _ _ (by decide)]
    exact hna
  simp [create_bucket_headers, h1, h2, h3, hc, except_bind_ok]

theorem delete_bucket_headers_eq (c : StorageClient)
    (hv : headerValueValid c.api_key = true)
    (hna : hmContains c.headers AUTHORIZATION = false) :
    delete_bucket_headers c =
      .ok (hmInsert c.headers AUTHORIZATION ("Bearer " ++ c.api_key)) := by
  have h2 := headerValueFromStr_ok (headerValueValid_bearer hv)
  simp [delete_bucket_headers, h2, hna, except_bind_ok]

theorem empty_bucket_headers_eq (c : StorageClient)
    (hv : headerValueValid c.api_key = true)
    (hna : hmContains c.headers AUTHORIZATION = false) :
    empty_bucket_headers c = .ok (hmInsert (hmInsert c.headers
      HEADER_API_KEY c.api_key) AUTHORIZATION ("Bearer " ++ c.api_key)) := by
  have h1 := headerValueFromStr_ok hv
  have h2 := headerValueFromStr_ok (headerValueValid_bearer hv)
  have hc : hmContains (hmInsert c.headers HEADER_API_KEY c.api_key) AUTHORIZATION
      = false := by
    rw [hmContains_insert_ne _ _ _ _ (by decide)]
    exact hna
  simp [empty_bucket_headers, h1, h2, hc, except_bind_ok]

/-! ## Claim C1: non-2xx responses and StorageError -/

/-- Claim C1 counterexample: `create_bucket` receiving HTTP status 500
with a body that parses as the success shape (serde ignores the status
entirely) returns a success value, so a non-2xx status does not always
surface a `StorageError`. -/
theorem claim1_counterexample :
    is_success 500 = false ∧
    create_bucket_handle ⟨500, "\x7b\"name\":\"x\"\x7d", some ⟨"x"⟩⟩ = .ok "x" :=
  ⟨by decide, rfl⟩

/-- Claim C1 (amended): the operations that test the status explicitly
(`delete_bucket`, `download_file`) return, on every non-2xx status, a
`StorageError` carrying the actual status and the raw body (decoded as
lossy UTF-8 for `download_file`); the body-parsing operations, here
`create_bucket`, return that `StorageError` exactly when the body fails
to parse as the success shape, regardless of the status — a non-2xx
response whose body parses as the success shape yields success. -/
theorem claim1_amended (status : Nat) (body : String) (bytes : List Nat)
    (parsed : Option CreateBucketResponse) :
    (is_success status = false →
      delete_bucket_handle ⟨status, body, none⟩ =
        .error (.storageError status body) ∧
      download_file_handle ⟨status, bytes⟩ =
        .error (.storageError status (utf8Lossy bytes))) ∧
    (parsed = none →
      create_bucket_handle ⟨status, body, parsed⟩ =
        .error (.storageError status body)) ∧
    (∀ r, parsed = some r →
      create_bucket_handle ⟨status, body, parsed⟩ = .ok r.name) := by
  refine ⟨fun h => ⟨?_, ?_⟩, fun h => ?_, fun r h => ?_⟩
  · simp [delete_bucket_handle, h]
  · simp [download_file_handle, h]
  · simp [create_bucket_handle, h]
  · simp [create_bucket_handle, h]

/-- Claim C1 witness: the amended claim applied at a 404 response with
a textual body, a 404 byte response, a parse failure and a parse
success. -/
theorem claim1_witness :
    is_success 404 = false ∧
    delete_bucket_handle ⟨404, "Bucket not found", none⟩ =
      .error (.storageError 404 "Bucket not found") ∧
    download_file_handle ⟨404, [78, 111]⟩ = .error (.storageError 404 "No") ∧
    create_bucket_handle ⟨500, "oops", none⟩ = .error (.storageError 500 "oops") ∧
    create_bucket_handle ⟨201, "ignored", some ⟨"b"⟩⟩ = .ok "b" := by
  have h₁ := claim1_amended 404 "Bucket not found" [78, 111] none
  have h₂ := claim1_amended 500 "oops" [] none
  have h₃ := claim1_amended 201 "ignored" [] (some ⟨"b"⟩)
  refine ⟨by decide, (h₁.1 (by decide)).1, ?_, h₂.2.1 rfl, h₃.2.2 ⟨"b"⟩ rfl⟩
  rw [(h₁.1 (by decide)).2]
  decide

/-! ## Claim C2: apikey and authorization headers on bucket mutations -/

/-- Claim C2 counterexample: for a client with empty default headers,
the request built by `delete_bucket` carries no apikey header at all —
only the bearer authorization header — so not every bucket-mutating
operation sends both headers. -/
theorem claim2_counterexample :
    ∃ req, delete_bucket_request ⟨"https://example.co", "key", []⟩ "b" = .ok req ∧
      hmContains req.headers HEADER_API_KEY = false ∧
      hmGet? req.headers AUTHORIZATION = some "Bearer key" :=
  ⟨⟨.DELETE, "https://example.co/storage/v1/bucket/b",
      [(AUTHORIZATION, "Bearer key")], ()⟩, by decide, by decide, by decide⟩

/-- Claim C2 (amended): for a client whose credential is a legal header
value and whose default headers set neither authorization nor apikey,
the requests built by `create_bucket`, `update_bucket` and
`empty_bucket` carry both the apikey header (equal to the credential)
and the bearer authorization header (derived from the same credential),
while the request built by `delete_bucket` carries only the bearer
authorization header and no apikey header.  None of the four methods
takes any per-call header argument. -/
theorem claim2_amended (c : StorageClient)
    (hv : headerValueValid c.api_key = true)
    (hna : hmContains c.headers AUTHORIZATION = false)
    (hnk : hmContains c.headers HEADER_API_KEY = false)
    (name bid : String) (id : Option String) (public : Bool)
    (mimes : Option (List MimeType)) (limit : Option Nat) :
    (∃ req, create_bucket_request c name id public mimes limit = .ok req ∧
      hmGet? req.headers HEADER_API_KEY = some c.api_key ∧
      hmGet? req.headers AUTHORIZATION = some ("Bearer " ++ c.api_key)) ∧
    (∃ req, update_bucket_request c bid public mimes limit = .ok req ∧
      hmGet? req.headers HEADER_API_KEY = some c.api_key ∧
      hmGet? req.headers AUTHORIZATION = some ("Bearer " ++ c.api_key)) ∧
    (∃ req, empty_bucket_request c bid = .ok req ∧
      hmGet? req.headers HEADER_API_KEY = some c.api_key ∧
      hmGet? req.headers AUTHORIZATION = some ("Bearer " ++ c.api_key)) ∧
    (∃ req, delete_bucket_request c bid = .ok req ∧
      hmContains req.headers HEADER_API_KEY = false ∧
      hmGet? req.headers AUTHORIZATION = some ("Bearer " ++ c.api_key)) := by
  have hcb := create_bucket_headers_eq c hv hna
  have hdb := delete_bucket_headers_eq c hv hna
  have heb := empty_bucket_headers_eq c hv hna
  have hkey_ct : HEADER_API_KEY ≠ CONTENT_TYPE := by decide
  have hkey_auth : HEADER_API_KEY ≠ AUTHORIZATION := by decide
  have hauth_ct : AUTHORIZATION ≠ CONTENT_TYPE := by decide
  set m3 := hmInsert (hmInsert (hmInsert c.headers HEADER_API_KEY c.api_key)
    AUTHORIZATION ("Bearer " ++ c.api_key)) CONTENT_TYPE "application/json" with hm3
  set m2 := hmInsert (hmInsert c.headers HEADER_API_KEY c.api_key)
    AUTHORIZATION ("Bearer " ++ c.api_key) with hm2
  set m1 := hmInsert c.headers AUTHORIZATION ("Bearer " ++ c.api_key) with hm1
  have hg3k : hmGet? m3 HEADER_API_KEY = some c.api_key := by
    rw [hm3, hmGet?_insert_ne _ _ _ _ hkey_ct, hmGet?_insert_ne _ _ _ _ hkey_auth,
      hmGet?_insert_self]
  have hg3a : hmGet? m3 AUTHORIZATION = some ("Bearer " ++ c.api_key) := by
    rw [hm3, hmGet?_insert_ne _ _ _ _ hauth_ct, hmGet?_insert_self]
  have hg2k : hmGet? m2 HEADER_API_KEY = some c.api_key := by
    rw [hm2, hmGet?_insert_ne _ _ _ _ hkey_auth, hmGet?_insert_self]
  have hg2a : hmGet? m2 AUTHORIZATION = some ("Bearer " ++ c.api_key) := by
    rw [hm2, hmGet?_insert_self]
  have hg1k : hmContains m1 HEADER_API_KEY = false := by
    rw [hm1, hmContains_insert_ne _ _ _ _ hkey_auth]
    exact hnk
  have hg1a : hmGet? m1 AUTHORIZATION = some ("Bearer " ++ c.api_key) := by
    rw [hm1, hmGet?_insert_self]
  refine ⟨⟨⟨.POST, c.project_url ++ STORAGE_V1 ++ "/bucket", m3,
      create_bucket_payload name id public mimes limit⟩, ?_, hg3k, hg3a⟩,
    ⟨⟨.PUT, c.project_url ++ STORAGE_V1 ++ "/bucket/" ++ bid, m3,
      { id := bid, public := public,
        allowed_mime_types := mimes.map (fun types => types.map MimeType.as_str),
        file_size_limit := limit }⟩, ?_, hg3k, hg3a⟩,
    ⟨⟨.POST, c.project_url ++ STORAGE_V1 ++ "/bucket/" ++ bid ++ "/empty", m2, ()⟩,
      ?_, hg2k, hg2a⟩,
    ⟨⟨.DELETE, c.project_url ++ STORAGE_V1 ++ "/bucket/" ++ bid, m1, ()⟩,
      ?_, hg1k, hg1a⟩⟩
  · simp [create_bucket_request, hcb, except_bind_ok]
  · simp [update_bucket_request, update_bucket_headers, hcb, except_bind_ok]
  · simp [empty_bucket_request, heb, except_bind_ok]
  · simp [delete_bucket_request, hdb, except_bind_ok]

/-- Claim C2 witness: the amended claim applied to a concrete client
with empty default headers. -/
theorem claim2_witness :
    (∃ req, create_bucket_request ⟨"https://example.co", "service-key", []⟩
        "b" none false none none = .ok req ∧
      hmGet? req.headers HEADER_API_KEY = some "service-key" ∧
      hmGet? req.headers AUTHORIZATION = some ("Bearer " ++ "service-key")) ∧
    (∃ req, update_bucket_request ⟨"https://example.co", "service-key", []⟩
        "b" false none none = .ok req ∧
      hmGet? req.headers HEADER_API_KEY = some "service-key" ∧
      hmGet? req.headers AUTHORIZATION = some ("Bearer " ++ "service-key")) ∧
    (∃ req, empty_bucket_request ⟨"https://example.co", "service-key", []⟩ "b"
        = .ok req ∧
      hmGet? req.headers HEADER_API_KEY = some "service-key" ∧
      hmGet? req.headers AUTHORIZATION = some ("Bearer " ++ "service-key")) ∧
    (∃ req, delete_bucket_request ⟨"https://example.co", "service-key", []⟩ "b"
        = .ok req ∧
      hmContains req.headers HEADER_API_KEY = false ∧
      hmGet? req.headers AUTHORIZATION = some ("Bearer " ++ "service-key")) :=
  claim2_amended ⟨"https://example.co", "service-key", []⟩ (by decide) (by decide)
    (by decide) "b" "b" none false none none

/-! ## Claim C3: header-inserting builder on illegal values -/

/-- Claim C3 counterexample: on the illegal header value containing a
newline, `insert_header` does not return a header-construction error to
the caller — it panics (the `.expect` call), i.e. it diverges. -/
theorem claim3_counterexample :
    insert_header ⟨"https://example.co", "key", []⟩ "x-custom" "bad\nvalue" =
      .panicked "Invalid header value." := by
  rfl

/-- Claim C3 (amended): for every header name and every value that is
not a legal HTTP header value, `insert_header` panics with the message
of its `.expect` call instead of returning an error, while the header
constructions inside the request methods (`HeaderValue::from_str(..)?`)
are the ones that surface the `InvalidHeaderValue` error to the caller;
on a legal value `insert_header` inserts the header and succeeds. -/
theorem claim3_amended (c : StorageClient) (name value : String) :
    (headerValueValid value = false →
      insert_header c name value = .panicked "Invalid header value." ∧
      headerValueFromStr value = .error .invalidHeaderValue) ∧
    (headerValueValid value = true →
      insert_header c name value =
        .ok { c with headers := hmInsert c.headers name value }) := by
  constructor
  · intro h
    constructor
    · simp [insert_header, h]
    · simp [headerValueFromStr, h]
  · intro h
    simp [insert_header, h]

/-- Claim C3 witness: the amended claim applied to one illegal and one
legal value. -/
theorem claim3_witness :
    insert_header ⟨"u", "k", []⟩ "x-custom" "bad\nvalue" =
      .panicked "Invalid header value." ∧
    headerValueFromStr "bad\nvalue" = .error .invalidHeaderValue ∧
    insert_header ⟨"u", "k", []⟩ "x-custom" "good-value" =
      .ok { project_url := "u", api_key := "k",
            headers := hmInsert [] "x-custom" "good-value" } :=
  ⟨((claim3_amended ⟨"u", "k", []⟩ "x-custom" "bad\nvalue").1 (by decide)).1,
   ((claim3_amended ⟨"u", "k", []⟩ "x-custom" "bad\nvalue").1 (by decide)).2,
   (claim3_amended ⟨"u", "k", []⟩ "x-custom" "good-value").2 (by decide)⟩

/-! ## Claim C4: result of create_signed_upload_url -/

/-- Claim C4: against the claim (and the method's own doc comment and
the crate's test, which reads a `token` field), the typed result of
`create_signed_upload_url` carries only the relative `url`: the handler
returns exactly the parsed `url` value, and two results with the same
`url` are equal — the result has no authorization-token component. -/
theorem claim4_thm (status : Nat) (body : String) (u : String) :
    create_signed_upload_url_handle ⟨status, body, some ⟨u⟩⟩ = .ok ⟨u⟩ ∧
    (∀ r₁ r₂ : SignedUploadUrlResponse, r₁.url = r₂.url → r₁ = r₂) := by
  refine ⟨rfl, ?_⟩
  intro r₁ r₂ h
  cases r₁
  cases r₂
  cases h
  rfl

/-- Claim C4 witness: the theorem applied at a concrete successful
response. -/
theorem claim4_witness :
    create_signed_upload_url_handle
        ⟨200, "body", some ⟨"/object/upload/sign/b/42.txt?token=abc"⟩⟩ =
      .ok ⟨"/object/upload/sign/b/42.txt?token=abc"⟩ ∧
    (⟨"u"⟩ : SignedUploadUrlResponse) = ⟨"u"⟩ :=
  ⟨(claim4_thm 200 "body" "/object/upload/sign/b/42.txt?token=abc").1,
   (claim4_thm 200 "body" "x").2 ⟨"u"⟩ ⟨"u"⟩ rfl⟩

/-! ## Claim C5: update_file = replace_file; upload_file differs in verb -/

/-- Claim C5: `update_file` and `replace_file` build the identical
request (both delegate to the upload-or-update primitive with
`update = true`, the PUT verb), and `upload_file` builds the same
request with only the method replaced by POST. -/
theorem claim5_thm (c : StorageClient) (bucket_id : String) (data : List Nat)
    (path : String) (options : Option FileOptions) :
    update_file_request c bucket_id data path options =
      replace_file_request c bucket_id data path options ∧
    update_file_request c bucket_id data path options =
      upload_or_update_file_request c bucket_id data path true options ∧
    upload_file_request c bucket_id data path options =
      Except.map (fun r => { r with method := Method.POST })
        (update_file_request c bucket_id data path options) := by
  refine ⟨rfl, rfl, ?_⟩
  unfold upload_file_request update_file_request upload_or_update_file_request
  cases h : upload_headers c options <;> simp [Except.map]

/-! ## Claim C6: MimeType string conversion -/

/-- Claim C6 counterexample: the `Custom` variant applied to the empty
string (which the crate's own test suite constructs) yields an empty,
not well-formed string, refuting well-formedness for every variant. -/
theorem claim6_counterexample :
    MimeType.as_str (.Custom "") = "" ∧
    wellFormedMime (MimeType.as_str (.Custom "")) = false :=
  ⟨rfl, by decide⟩

/-- Claim C6 (amended): every fixed (non-`Custom`) variant converts to
a non-empty, well-formed `type/subtype` string, and the `Custom`
variant returns exactly the string it was constructed with (with no
well-formedness guarantee for it). -/
theorem claim6_amended (m : MimeType) :
    (∀ s, m = .Custom s → m.as_str = s) ∧
    ((∀ s, m ≠ .Custom s) → wellFormedMime m.as_str = true) := by
  cases m
  case Custom s0 =>
    exact ⟨fun s h => by cases h; rfl, fun h => absurd rfl (h s0)⟩
  all_goals exact ⟨fun s h => MimeType.noConfusion h, fun _ => by decide⟩

/-- Claim C6 witness: the amended claim applied to the `Custom` variant
of the test suite and to a fixed variant. -/
theorem claim6_witness :
    MimeType.as_str (.Custom "image/*") = "image/*" ∧
    wellFormedMime (MimeType.as_str .PNG) = true :=
  ⟨(claim6_amended (.Custom "image/*")).1 "image/*" rfl,
   (claim6_amended .PNG).2 (fun _ h => MimeType.noConfusion h)⟩

/-! ## Claim C7: get_public_url -/

theorem buq_base (u : String) (opts : DownloadOptions) :
    (build_url_with_options u opts).base = u := rfl

theorem buq_download_split (u : String) (tr : Option TransformOptions)
    (dl : Option Bool) :
    (build_url_with_options u ⟨tr, dl⟩).query =
      (build_url_with_options u ⟨tr, none⟩).query ++
        (if dl.getD false then [("download", "true")] else []) := by
  cases dl with
  | none => simp [build_url_with_options]
  | some b => cases b <;> simp [build_url_with_options]

theorem buq_query_none_transform (u : String) (dl : Option Bool) :
    (build_url_with_options u ⟨none, dl⟩).query =
      if dl.getD false then [("download", "true")] else [] := by
  cases dl with
  | none => rfl
  | some b => cases b <;> rfl

theorem mem_buq_resize_nodl (u : String) (tr : Option TransformOptions) (r : String) :
    ("resize", r) ∈ (build_url_with_options u ⟨tr, none⟩).query ↔
      ∃ t, tr = some t ∧ t.resize = some r ∧
        (r = "conver" ∨ r = "contain" ∨ r = "fill") := by
  cases tr with
  | none => simp [build_url_with_options]
  | some t =>
    obtain ⟨w, h, rz, fm, ql⟩ := t
    cases rz with
    | none =>
      cases h <;> cases w <;> cases fm <;> cases ql <;>
        simp [build_url_with_options]
    | some r0 =>
      by_cases hr : r0 = "conver" ∨ r0 = "contain" ∨ r0 = "fill" <;>
        cases h <;> cases w <;> cases fm <;> cases ql <;>
          simp [build_url_with_options, hr] <;>
          first
            | (constructor
               · rintro rfl
                 exact ⟨rfl, hr⟩
               · rintro ⟨rfl, _⟩
                 rfl)
            | (rintro rfl
               exact ⟨fun hh => hr (Or.inl hh),
                 fun hh => hr (Or.inr (Or.inl hh)),
                 fun hh => hr (Or.inr (Or.inr hh))⟩)

theorem mem_buq_resize (u : String) (tr : Option TransformOptions)
    (dl : Option Bool) (r : String) :
    ("resize", r) ∈ (build_url_with_options u ⟨tr, dl⟩).query ↔
      ∃ t, tr = some t ∧ t.resize = some r ∧
        (r = "conver" ∨ r = "contain" ∨ r = "fill") := by
  have hd : (("resize", r) ∈
      (if dl.getD false then [("download", "true")] else [])) ↔ False := by
    cases dl with
    | none => simp
    | some b => cases b <;> simp
  rw [buq_download_split]
  rw [List.mem_append, hd, or_false]
  exact mem_buq_resize_nodl u tr r

theorem not_mem_download_transform (u : String) (tr : Option TransformOptions) :
    ("download", "true") ∉ (build_url_with_options u ⟨tr, none⟩).query := by
  cases tr with
  | none => simp [build_url_with_options]
  | some t =>
    obtain ⟨w, h, rz, fm, ql⟩ := t
    cases rz with
    | none =>
      cases h <;> cases w <;> cases fm <;> cases ql <;>
        simp [build_url_with_options]
    | some r0 =>
      by_cases hr : r0 = "conver" ∨ r0 = "contain" ∨ r0 = "fill" <;>
        cases h <;> cases w <;> cases fm <;> cases ql <;>
          simp [build_url_with_options, hr]

theorem mem_buq_download (u : String) (tr : Option TransformOptions)
    (dl : Option Bool) :
    ("download", "true") ∈ (build_url_with_options u ⟨tr, dl⟩).query ↔
      dl = some true := by
  rw [buq_download_split]
  cases dl with
  | none => simp [not_mem_download_transform]
  | some b => cases b <;> simp [not_mem_download_transform]

theorem mem_buq_height (u : String) (hh : Nat) (w : Option Nat)
    (rz fm : Option String) (ql : Option Nat) (dl : Option Bool) :
    ("height", toString hh) ∈
      (build_url_with_options u ⟨some ⟨w, some hh, rz, fm, ql⟩, dl⟩).query := by
  rw [buq_download_split]
  refine List.mem_append.mpr (Or.inl ?_)
  cases w <;> cases fm <;> cases ql <;>
    (cases rz with
     | none => simp [build_url_with_options]
     | some r0 =>
       by_cases hr : r0 = "conver" ∨ r0 = "contain" ∨ r0 = "fill" <;>
         simp [build_url_with_options, hr])

theorem mem_buq_width (u : String) (ww : Nat) (h : Option Nat)
    (rz fm : Option String) (ql : Option Nat) (dl : Option Bool) :
    ("width", toString ww) ∈
      (build_url_with_options u ⟨some ⟨some ww, h, rz, fm, ql⟩, dl⟩).query := by
  rw [buq_download_split]
  refine List.mem_append.mpr (Or.inl ?_)
  cases h <;> cases fm <;> cases ql <;>
    (cases rz with
     | none => simp [build_url_with_options]
     | some r0 =>
       by_cases hr : r0 = "conver" ∨ r0 = "contain" ∨ r0 = "fill" <;>
         simp [build_url_with_options, hr])

theorem mem_buq_format (u : String) (ff : String) (w h : Option Nat)
    (rz : Option String) (ql : Option Nat) (dl : Option Bool) :
    ("format", ff) ∈
      (build_url_with_options u ⟨some ⟨w, h, rz, some ff, ql⟩, dl⟩).query := by
  rw [buq_download_split]
  refine List.mem_append.mpr (Or.inl ?_)
  cases h <;> cases w <;> cases ql <;>
    (cases rz with
     | none => simp [build_url_with_options]
     | some r0 =>
       by_cases hr : r0 = "conver" ∨ r0 = "contain" ∨ r0 = "fill" <;>
         simp [build_url_with_options, hr])

theorem mem_buq_quality (u : String) (qq : Nat) (w h : Option Nat)
    (rz fm : Option String) (dl : Option Bool) :
    ("quality", toString qq) ∈
      (build_url_with_options u ⟨some ⟨w, h, rz, fm, some qq⟩, dl⟩).query := by
  rw [buq_download_split]
  refine List.mem_append.mpr (Or.inl ?_)
  cases h <;> cases w <;> cases fm <;>
    (cases rz with
     | none => simp [build_url_with_options]
     | some r0 =>
       by_cases hr : r0 = "conver" ∨ r0 = "contain" ∨ r0 = "fill" <;>
         simp [build_url_with_options, hr])

/-- Claim C7: `get_public_url` is pure local URL construction — it
builds a `UrlWithQuery` value and no `Request`, issuing no network
call.  Its path segment is `render/image` exactly when transform
options are present and `object` otherwise; the height, width, format
and quality options are appended as query parameters; a resize pair is
present exactly when the resize value is one of the three allow-listed
literals (any other value is silently dropped, never an error); and
`download=true` is present exactly when the download option is
`some true`. -/
theorem claim7_thm (c : StorageClient) (bucket_id path : String) :
    get_public_url c bucket_id path none =
      ⟨c.project_url ++ STORAGE_V1 ++ "/" ++ "object" ++ "/public/" ++
        bucket_id ++ "/" ++ path, []⟩ ∧
    ∀ opts : DownloadOptions,
      (get_public_url c bucket_id path (some opts)).base =
        c.project_url ++ STORAGE_V1 ++ "/" ++
          (if opts.transform.isSome then "render/image" else "object") ++
          "/public/" ++ bucket_id ++ "/" ++ path ∧
      (∀ r, ("resize", r) ∈ (get_public_url c bucket_id path (some opts)).query ↔
        ∃ t, opts.transform = some t ∧ t.resize = some r ∧
          (r = "conver" ∨ r = "contain" ∨ r = "fill")) ∧
      (("download", "true") ∈ (get_public_url c bucket_id path (some opts)).query ↔
        opts.download = some true) ∧
      (∀ t, opts.transform = some t →
        (∀ hh, t.height = some hh →
          ("height", toString hh) ∈ (get_public_url c bucket_id path (some opts)).query) ∧
        (∀ ww, t.width = some ww →
          ("width", toString ww) ∈ (get_public_url c bucket_id path (some opts)).query) ∧
        (∀ ff, t.format = some ff →
          ("format", ff) ∈ (get_public_url c bucket_id path (some opts)).query) ∧
        (∀ qq, t.quality = some qq →
          ("quality", toString qq) ∈ (get_public_url c bucket_id path (some opts)).query)) ∧
      (opts.transform = none →
        (get_public_url c bucket_id path (some opts)).query =
          if opts.download.getD false then [("download", "true")] else []) := by
  refine ⟨rfl, fun opts => ?_⟩
  obtain ⟨tr, dl⟩ := opts
  refine ⟨?_, ?_, ?_, ?_, ?_⟩
  · cases tr <;> rfl
  · intro r
    exact mem_buq_resize _ tr dl r
  · exact mem_buq_download _ tr dl
  · intro t ht
    cases ht
    obtain ⟨w, h, rz, fm, ql⟩ := t
    refine ⟨fun hh he => ?_, fun ww he => ?_, fun ff he => ?_, fun qq he => ?_⟩
    · cases he
      exact mem_buq_height _ hh w rz fm ql dl
    · cases he
      exact mem_buq_width _ ww h rz fm ql dl
    · cases he
      exact mem_buq_format _ ff w h rz ql dl
    · cases he
      exact mem_buq_quality _ qq w h rz fm dl
  · intro ht
    cases ht
    exact buq_query_none_transform _ dl

/-- Claim C7 witness: the theorem applied to a concrete client and
concrete options with a disallowed resize value. -/
theorem claim7_witness :
    ("download", "true") ∈ (get_public_url ⟨"https://proj.supabase.co", "key", []⟩
      "photos" "beach.jpg"
      (some ⟨some ⟨some 100, some 200, some "bogus", some "origin", some 80⟩,
        some true⟩)).query ∧
    ¬ ("resize", "bogus") ∈ (get_public_url ⟨"https://proj.supabase.co", "key", []⟩
      "photos" "beach.jpg"
      (some ⟨some ⟨some 100, some 200, some "bogus", some "origin", some 80⟩,
        some true⟩)).query ∧
    ("height", "200") ∈ (get_public_url ⟨"https://proj.supabase.co", "key", []⟩
      "photos" "beach.jpg"
      (some ⟨some ⟨some 100, some 200, some "bogus", some "origin", some 80⟩,
        some true⟩)).query ∧
    (get_public_url ⟨"https://proj.supabase.co", "key", []⟩ "photos" "beach.jpg"
        none).base =
      "https://proj.supabase.co" ++ STORAGE_V1 ++ "/" ++ "object" ++ "/public/" ++
        "photos" ++ "/" ++ "beach.jpg" := by
  have h := claim7_thm ⟨"https://proj.supabase.co", "key", []⟩ "photos" "beach.jpg"
  have hs := h.2 ⟨some ⟨some 100, some 200, some "bogus", some "origin", some 80⟩,
    some true⟩
  refine ⟨(hs.2.2.1).mpr rfl, fun hmem => ?_, ?_, ?_⟩
  · rcases (hs.2.1 "bogus").mp hmem with ⟨t, _, _, habs⟩
    exact absurd habs (by decide)
  · exact ((hs.2.2.2.1 _ rfl).1 200 rfl)
  · rw [h.1]


/-- Claim C8: in the copy and move payloads the destination bucket
defaults to the source bucket when omitted and equals the explicit
bucket otherwise; the destination key defaults to the source key for
copy only, while move takes the destination key as a required argument
that the payload carries unchanged. -/
theorem claim8_thm (from_bucket from_path : String) (to_bucket : Option String)
    (to_path : Option String) (move_to_path : String) (copy_metadata : Bool) :
    (copy_file_payload from_bucket none from_path to_path copy_metadata).destination_bucket
      = from_bucket ∧
    (move_file_payload from_bucket none from_path move_to_path).destination_bucket
      = from_bucket ∧
    (copy_file_payload from_bucket to_bucket from_path none copy_metadata).destination_key
      = from_path ∧
    (move_file_payload from_bucket to_bucket from_path move_to_path).destination_key
      = move_to_path ∧
    (∀ tb, (copy_file_payload from_bucket (some tb) from_path to_path
        copy_metadata).destination_bucket = tb) ∧
    (∀ tp, (copy_file_payload from_bucket to_bucket from_path (some tp)
        copy_metadata).destination_key = tp) :=
  ⟨rfl, rfl, rfl, rfl, fun _ => rfl, fun _ => rfl⟩

/-! ## Claim C9: create_bucket id defaults to name -/

/-- Claim C9: for a non-empty name and no explicit id, the creation
payload's id equals the supplied name, and on a successfully parsed
response the operation returns the bucket name from the response. -/
theorem claim9_thm (name : String) (hname : name ≠ "") (public : Bool)
    (allowed : Option (List MimeType)) (limit : Option Nat)
    (status : Nat) (body : String) (r : CreateBucketResponse) :
    (create_bucket_payload name none public allowed limit).id = some name ∧
    (create_bucket_payload name none public allowed limit).name = name ∧
    create_bucket_handle ⟨status, body, some r⟩ = .ok r.name :=
  ⟨rfl, rfl, rfl⟩

/-- Claim C9 witness: the theorem applied at the bucket name of the
crate's own test. -/
theorem claim9_witness :
    (create_bucket_payload "a-cool-name-for-a-bucket" none false none none).id
      = some "a-cool-name-for-a-bucket" ∧
    (create_bucket_payload "a-cool-name-for-a-bucket" none false none none).name
      = "a-cool-name-for-a-bucket" ∧
    create_bucket_handle ⟨200, "ignored", some ⟨"a-cool-name-for-a-bucket"⟩⟩ =
      .ok "a-cool-name-for-a-bucket" :=
  claim9_thm "a-cool-name-for-a-bucket" (by decide) false none none 200 "ignored"
    ⟨"a-cool-name-for-a-bucket"⟩

/-! ## Claim C10: extract_token -/

theorem splitOnChar_ne_nil (sep : Char) (l : List Char) :
    ∃ h t, splitOnChar sep l = h :: t := by
  cases l with
  | nil => exact ⟨[], [], rfl⟩
  | cons c rest =>
    cases hs : splitOnChar sep rest with
    | nil => exact ⟨[], [], by simp [splitOnChar, hs]⟩
    | cons h t =>
      by_cases hc : c = sep
      · exact ⟨[], h :: t, by simp [splitOnChar, hs, hc]⟩
      · exact ⟨c :: h, t, by simp [splitOnChar, hs, hc]⟩

theorem splitOnChar_head (sep : Char) (l : List Char) :
    ∃ t, splitOnChar sep l = (l.takeWhile (fun c => c != sep)) :: t := by
  induction l with
  | nil => exact ⟨[], rfl⟩
  | cons c rest ih =>
    obtain ⟨t, ht⟩ := ih
    by_cases hc : c = sep
    · exact ⟨(rest.takeWhile (fun x => x != sep)) :: t,
        by simp [splitOnChar, ht, hc, List.takeWhile_cons]⟩
    · exact ⟨t, by simp [splitOnChar, ht, hc, List.takeWhile_cons]⟩

theorem splitOnChar_get1 (url : List Char) :
    (splitOnChar '?' url).get? 1 = querySection url := by
  induction url with
  | nil => simp [splitOnChar, querySection]
  | cons c rest ih =>
    by_cases hc : c = '?'
    · subst hc
      obtain ⟨t, ht⟩ := splitOnChar_head '?' rest
      simp [splitOnChar, ht, querySection, List.dropWhile_cons]
    · obtain ⟨h, t, hs⟩ := splitOnChar_ne_nil '?' rest
      have ihx := ih
      rw [hs] at ihx
      have hL : (splitOnChar '?' (c :: rest)).get? 1 = t.get? 0 := by
        simp [splitOnChar, hs, hc]
      have hL2 : (h :: t).get? 1 = t.get? 0 := rfl
      rw [hL2] at ihx
      rw [hL, ihx]
      unfold querySection
      by_cases hm : '?' ∈ rest
      · have hm2 : '?' ∈ c :: rest := List.mem_cons_of_mem c hm
        rw [if_pos hm, if_pos hm2]
        have hd : (c :: rest).dropWhile (fun x => x != '?') =
            rest.dropWhile (fun x => x != '?') := by
          simp [List.dropWhile_cons, hc]
        rw [hd]
      · have hm2 : ¬ '?' ∈ c :: rest := by
          intro hcc
          rcases List.mem_cons.mp hcc with h1 | h1
          · exact hc h1.symm
          · exact hm h1
        rw [if_neg hm, if_neg hm2]

/-- Claim C10: `extract_token` is total (it is a Lean function, and its
Rust source uses only non-panicking combinators, embedded here
faithfully including the guarded `strip_prefix`).  For every URL whose
query section (the text between the first `'?'` and the next `'?'` or
the end) contains an `'&'`-separated parameter starting with `token=`,
it returns exactly the first such parameter with the six-character
program text removed; for every other input (no `'?'`, or no such
parameter) it returns the `InvalidToken` error. -/
theorem claim10_thm (url : List Char) :
    (∀ q p, querySection url = some q →
      (splitOnChar '&' q).find? (fun s => tokenKey.isPrefixOf s) = some p →
      extract_token url = .ok (p.drop 6)) ∧
    (querySection url = none →
      extract_token url = .error (.invalidToken "No token found in URL")) ∧
    (∀ q, querySection url = some q →
      (splitOnChar '&' q).find? (fun s => tokenKey.isPrefixOf s) = none →
      extract_token url = .error (.invalidToken "No token found in URL")) := by
  refine ⟨fun q p hq hp => ?_, fun hq => ?_, fun q hq hp => ?_⟩
  · have hpre : tokenKey.isPrefixOf p = true := List.find?_some hp
    have hpre2 : tokenKey <+: p := by
      rw [← List.isPrefixOf_iff_prefix]
      exact hpre
    have hx : (splitOnChar '?' url).get? 1 = some q := by
      rw [splitOnChar_get1]; exact hq
    unfold extract_token
    rw [hx]
    simp [hp, hpre, hpre2, Option.bind]
  · have hx : (splitOnChar '?' url).get? 1 = none := by
      rw [splitOnChar_get1]; exact hq
    unfold extract_token
    rw [hx]
    rfl
  · have hx : (splitOnChar '?' url).get? 1 = some q := by
      rw [splitOnChar_get1]; exact hq
    unfold extract_token
    rw [hx]
    simp [hp, Option.bind]

/-- Claim C10 witness: the theorem applied at a URL with a token
parameter, a URL with no question mark and a URL whose query carries no
token parameter. -/
theorem claim10_witness :
    extract_token "https://x.co/p?alpha=1&token=abc&z".data = .ok "abc".data ∧
    extract_token "https://x.co/p".data =
      .error (.invalidToken "No token found in URL") ∧
    extract_token "https://x.co/p?alpha=1".data =
      .error (.invalidToken "No token found in URL") := by
  refine ⟨?_,
    (claim10_thm "https://x.co/p".data).2.1 (by decide),
    (claim10_thm "https://x.co/p?alpha=1".data).2.2 "alpha=1".data
      (by decide) (by decide)⟩
  have h := (claim10_thm "https://x.co/p?alpha=1&token=abc&z".data).1
    "alpha=1&token=abc&z".data "token=abc".data (by decide) (by decide)
  rw [h]
  decide

end Storage
